import Mathlib

/-!
Shallow embedding of the waste-segregation webcam app.

Source files embedded here:
* `src/unnamed/part_000` — the classification client (`captureFrame`,
  `classifyWaste` and the response schema for the remote model);
* `src/App.tsx` — the session controller (`startCamera`, `stopCamera`,
  `startClassification`, `stopClassification`, the 2-second polling tick);
* `src/components/ClassificationResult.tsx` — the pure result display
  (`getResultDetails`).

External effects (the DOM video element, the remote model call, timers and
media-stream tracks) are made explicit: the video surface is a record of its
observable fields, the outcome of the single remote request is a parameter,
and a `World` record carries the timer table and the track table that the
browser would own.
-/

namespace WasteApp

/-- The `WasteType` enumeration: `{PLASTIC, NON_PLASTIC, UNKNOWN}`. Declared
in `src/types.ts`, which is referenced by every source file. -/
inductive WasteType where
  | PLASTIC
  | NON_PLASTIC
  | UNKNOWN
deriving DecidableEq, Repr

/-- Modelled from the spec: `src/types.ts` is not under `src/`, so the string
value of each `WasteType` enum member is taken from the response schema in
`src/unnamed/part_000` (whose `enum` field lists exactly
`['PLASTIC', 'NON_PLASTIC', 'UNKNOWN']`) and from the spec's data model
(classification ∈ {PLASTIC, NON_PLASTIC, UNKNOWN}). -/
def WasteType.value : WasteType → String
  | .PLASTIC => "PLASTIC"
  | .NON_PLASTIC => "NON_PLASTIC"
  | .UNKNOWN => "UNKNOWN"

/-- The observable fields of the `HTMLVideoElement` that the classifier
reads: its intrinsic dimensions and the currently displayed frame (the
canvas rendering of `captureFrame` is abstracted to that frame's content). -/
structure VideoElement where
  videoWidth : Nat
  videoHeight : Nat
  frame : String
deriving DecidableEq, Repr

/-- Embedding of `captureFrame` (`src/unnamed/part_000` lines 11-23): produces the
base64 JPEG encoding of the current frame of the video element. The canvas
plumbing is abstracted; the encoding is identified with the frame content. -/
def captureFrame (videoElement : VideoElement) : String :=
  videoElement.frame

/-- The parse outcome of `response.text` in `classifyWaste`:
`JSON.parse` either throws on malformed text (`malformed`) or yields an
object from which the `classification` and `confidence` fields are
destructured. Well-formed responses carry a string label and a numeric
confidence, mirroring the declared response schema's field types. -/
inductive JsonBody where
  | malformed
  | obj (classification : String) (confidence : ℚ)
deriving DecidableEq, Repr

/-- The outcome of the single `ai.models.generateContent` request:
either the awaited call throws (transport failure) or it returns a
response whose text has the given parse outcome. -/
inductive ApiResult where
  | throw (msg : String)
  | respond (body : JsonBody)
deriving DecidableEq, Repr

/-- What one call of `classifyWaste` did: whether `captureFrame` ran,
how many remote requests were issued, and the returned value or the
propagated error. -/
structure ClassifyTrace where
  captureAttempted : Bool
  requestsIssued : Nat
  result : Except String WasteType
deriving Repr

/-- The confidence threshold literal `0.75` of `classifyWaste`
(`src/unnamed/part_000` line 84), written as the kernel-computable
rational `mkRat 3 4`; `confidenceThreshold_eq_literal` below checks that
this is exactly the value of the decimal literal. -/
def confidenceThreshold : ℚ := mkRat 3 4

/-- The `switch (classification)` statement of `classifyWaste`
(`src/unnamed/part_000` lines 88-95): the two known labels pass through,
every other value falls to the `default` branch returning `UNKNOWN`. -/
def switchClassification (classification : String) : WasteType :=
  if classification = WasteType.PLASTIC.value then WasteType.PLASTIC
  else if classification = WasteType.NON_PLASTIC.value then WasteType.NON_PLASTIC
  else WasteType.UNKNOWN

/-- Embedding of `classifyWaste` (`src/unnamed/part_000` lines 49-96).
The video element is `none` when the ref is null; the guard on lines 50-52
returns `UNKNOWN` before any capture or request. Otherwise a frame is
captured, exactly one request is issued, and the response is parsed:
a thrown call or malformed JSON propagates as an error; a parsed object is
filtered by the confidence threshold `0.75` and the label switch. -/
def classifyWaste (videoElement : Option VideoElement) (api : ApiResult) :
    ClassifyTrace :=
  match videoElement with
  | none => ⟨false, 0, Except.ok WasteType.UNKNOWN⟩
  | some v =>
    if v.videoWidth = 0 ∨ v.videoHeight = 0 then
      ⟨false, 0, Except.ok WasteType.UNKNOWN⟩
    else
      match api with
      | .throw msg => ⟨true, 1, Except.error msg⟩
      | .respond .malformed => ⟨true, 1, Except.error "SyntaxError: JSON.parse"⟩
      | .respond (.obj classification confidence) =>
        if confidence < confidenceThreshold then
          ⟨true, 1, Except.ok WasteType.UNKNOWN⟩
        else
          ⟨true, 1, Except.ok (switchClassification classification)⟩

/-- The icon component chosen by the result display. -/
inductive Icon where
  | plastic
  | nonPlastic
  | unknown
deriving DecidableEq, Repr

/-- The triple returned by `getResultDetails`. -/
structure ResultDetails where
  text : String
  style : String
  icon : Icon
deriving DecidableEq, Repr

/-- Embedding of `getResultDetails` (`src/components/ClassificationResult.tsx` lines
11-32): the three-way switch from the classification result to the label
text, the Tailwind style token string and the icon. -/
def getResultDetails (result : WasteType) : ResultDetails :=
  match result with
  | .PLASTIC =>
    ⟨"Plastic Waste", "bg-orange-500/20 border-orange-500 text-orange-300",
      Icon.plastic⟩
  | .NON_PLASTIC =>
    ⟨"Non-Plastic Waste", "bg-green-500/20 border-green-500 text-green-300",
      Icon.nonPlastic⟩
  | .UNKNOWN =>
    ⟨"Scanning...", "bg-gray-700/50 border-gray-600 text-gray-400",
      Icon.unknown⟩

/-- A `MediaStreamTrack`: identified by an id, carrying the flag that
`track.stop()` sets. Tracks live in the browser, outside React state; the
`World` below holds the table of all tracks ever created. -/
structure Track where
  id : Nat
  stopped : Bool
deriving DecidableEq, Repr

/-- The React state and refs of the `App` component (`src/App.tsx` lines
10-17): the activity flag, the held stream (as the list of its track ids),
the displayed classification, the camera-acquisition error slot, the
transient classification error slot, and `classificationIntervalRef`
(the polling timer handle, `null` when no interval is scheduled). -/
structure AppState where
  isCameraActive : Bool
  stream : Option (List Nat)
  classification : WasteType
  error : Option String
  classificationError : Option String
  intervalRef : Option Nat
deriving DecidableEq, Repr

/-- The app state together with the browser-owned resources it manipulates:
the table of all created tracks, the ids of currently scheduled interval
timers, and a counter supplying fresh timer ids for `setInterval`. -/
structure World where
  app : AppState
  tracks : List Track
  timers : List Nat
  nextTimer : Nat
deriving DecidableEq, Repr

/-- The initial React state (`src/App.tsx` lines 10-17): camera inactive,
no stream, classification `UNKNOWN`, both error slots empty, no timer. -/
def initialWorld : World :=
  { app := { isCameraActive := false, stream := none,
             classification := WasteType.UNKNOWN, error := none,
             classificationError := none, intervalRef := none },
    tracks := [], timers := [], nextTimer := 0 }

/-- Embedding of `stopClassification` (`src/App.tsx` lines 19-24): if the interval ref
holds a handle, `clearInterval` it (removing it from the scheduled timers)
and null the ref; otherwise do nothing. -/
def stopClassification (w : World) : World :=
  match w.app.intervalRef with
  | some h =>
    { w with timers := w.timers.erase h,
             app := { w.app with intervalRef := none } }
  | none => w

/-- Embedding of `startClassification` (`src/App.tsx` lines 26-45): first
`stopClassification()`, then `setInterval` a fresh timer and store its
handle in the ref. The body of the interval callback is `tickStep` below. -/
def startClassification (w : World) : World :=
  { stopClassification w with
    timers := (stopClassification w).timers ++ [(stopClassification w).nextTimer],
    nextTimer := (stopClassification w).nextTimer + 1,
    app := { (stopClassification w).app with
             intervalRef := some (stopClassification w).nextTimer } }

/-- The platform-reported reason a `getUserMedia` request was rejected:
a `DOMException` with its `name`, or any other thrown value. -/
inductive CameraError where
  | domException (name : String)
  | nonDomException
deriving DecidableEq, Repr

/-- The three user-visible camera-error categories of the spec. -/
inductive ErrClass where
  | permissionDenied
  | deviceNotFound
  | other
deriving DecidableEq, Repr

/-- The categorisation performed by the `if` chain in `startCamera`'s catch
block (`src/App.tsx` lines 60-67). -/
def classifyCameraError : CameraError → ErrClass
  | .domException n =>
    if n = "NotAllowedError" then ErrClass.permissionDenied
    else if n = "NotFoundError" then ErrClass.deviceNotFound
    else ErrClass.other
  | .nonDomException => ErrClass.other

/-- The message text set for each camera-error category
(`src/App.tsx` lines 60-66). -/
def errClassMessage : ErrClass → String
  | .permissionDenied =>
    "Camera access denied. Please enable camera permissions for this site in your browser settings."
  | .deviceNotFound =>
    "No camera found. Please ensure a camera is connected and enabled."
  | .other =>
    "An unexpected error occurred while accessing the camera. Please try again."

/-- The outcome of the awaited `getUserMedia` call: a granted stream (given
by the ids of its fresh tracks) or a rejection with the platform reason. -/
inductive CameraOutcome where
  | success (trackIds : List Nat)
  | failure (e : CameraError)
deriving DecidableEq, Repr

/-- The first three statements of `startCamera` (`src/App.tsx` lines
49-51), run before the `getUserMedia` await: clear both error slots and
reset the classification to `UNKNOWN`. -/
def resetSlots (w : World) : World :=
  { w with app := { w.app with
                    error := none, classificationError := none,
                    classification := WasteType.UNKNOWN } }

/-- Embedding of `startCamera` (`src/App.tsx` lines 48-72), given the outcome of the
device request. On success the granted stream's fresh (unstopped) tracks
are created and the stream is stored with the activity flag set; on failure
the reason is categorised, the message stored in the camera error slot, and
the activity flag cleared. -/
def startCamera (w : World) (outcome : CameraOutcome) : World :=
  let w1 := resetSlots w
  match outcome with
  | .success trackIds =>
    { w1 with tracks := w1.tracks ++ trackIds.map (fun i => ⟨i, false⟩),
              app := { w1.app with
                       stream := some trackIds,
                       isCameraActive := true } }
  | .failure e =>
    { w1 with app := { w1.app with
                       error := some (errClassMessage (classifyCameraError e)),
                       isCameraActive := false } }

/-- Embedding of `stream.getTracks().forEach(track => track.stop())`: set the stopped
flag of every track of the held stream. -/
def stopTracks (tracks : List Track) (ids : List Nat) : List Track :=
  tracks.map (fun t => if t.id ∈ ids then { t with stopped := true } else t)

/-- The part of `stopCamera` after the `stopClassification()` call
(`src/App.tsx` lines 76-82): stop every track of the held stream, then
clear the stream reference, the activity flag, the classification and the
transient classification error. -/
def stopCameraRest (w : World) : World :=
  let w1 :=
    match w.app.stream with
    | some ids => { w with tracks := stopTracks w.tracks ids }
    | none => w
  { w1 with app := { w1.app with
                     stream := none, isCameraActive := false,
                     classification := WasteType.UNKNOWN,
                     classificationError := none } }

/-- Embedding of `stopCamera` (`src/App.tsx` lines 74-83): `stopClassification()` first,
then release the tracks and clear the session state. -/
def stopCamera (w : World) : World :=
  stopCameraRest (stopClassification w)

/-- The `useEffect` on the activity flag (`src/App.tsx` lines 86-96):
after a render in which `isCameraActive` changed, start the polling loop
when active and stop it when not. -/
def activityEffect (w : World) : World :=
  if w.app.isCameraActive then startClassification w else stopClassification w

/-- One user press of the start button: `startCamera` followed by the
activity effect (which begins the polling loop exactly when the camera
became active). -/
def startStep (w : World) (outcome : CameraOutcome) : World :=
  activityEffect (startCamera w outcome)

/-- The body of the polling interval callback (`src/App.tsx` lines 28-44),
fired every 2000 ms while the timer is scheduled. If the video ref is null
nothing happens; otherwise `classifyWaste` is awaited: on success the
classification is stored and a pending transient error is cleared, on a
thrown error the transient error message is set and the classification is
forced to `UNKNOWN`. -/
def tickStep (w : World) (videoElement : Option VideoElement)
    (api : ApiResult) : World :=
  match videoElement with
  | none => w
  | some v =>
    match (classifyWaste (some v) api).result with
    | Except.ok r =>
      { w with app := { w.app with
                        classification := r,
                        classificationError :=
                          if w.app.classificationError.isSome then none
                          else w.app.classificationError } }
    | Except.error _ =>
      { w with app := { w.app with
                        classificationError :=
                          some "Classification failed. Please check your network connection.",
                        classification := WasteType.UNKNOWN } }

/-- The worlds the running app can reach. `start` is only offered while the
camera is inactive and `tick` only while a timer is scheduled, matching the
button (`isCameraActive ? stopCamera : startCamera`) and the interval; the
stop transition also covers the unmount cleanup. -/
inductive Reachable : World → Prop where
  | init : Reachable initialWorld
  | start {w : World} (outcome : CameraOutcome) : Reachable w →
      w.app.isCameraActive = false → Reachable (startStep w outcome)
  | stop {w : World} : Reachable w → Reachable (stopCamera w)
  | tick {w : World} (videoElement : Option VideoElement) (api : ApiResult) :
      Reachable w → w.app.intervalRef.isSome = true →
      Reachable (tickStep w videoElement api)

/-- A concrete reachable world: the state right after the first successful
camera start, whose stream holds one track with id 5. -/
def demoStart : World := startStep initialWorld (CameraOutcome.success [5])

/-- The timer bookkeeping invariant maintained by the session controller:
a timer handle is held exactly while the camera is active, the scheduled
timers are exactly the held handle, and the held handle was issued by the
fresh-id counter. -/
def TimerInv (w : World) : Prop :=
  w.app.intervalRef.isSome = w.app.isCameraActive ∧
  w.timers = w.app.intervalRef.toList ∧
  (∀ h, w.app.intervalRef = some h → h < w.nextTimer)

/-- Lemma: `stopClassification` only touches the timer bookkeeping: every other
field of the world is preserved, and the handle ref ends up null. -/
theorem stopClassification_fields (w : World) :
    (stopClassification w).app.intervalRef = none ∧
    (stopClassification w).app.isCameraActive = w.app.isCameraActive ∧
    (stopClassification w).nextTimer = w.nextTimer ∧
    (stopClassification w).tracks = w.tracks ∧
    (stopClassification w).app.stream = w.app.stream ∧
    (stopClassification w).app.classification = w.app.classification ∧
    (stopClassification w).app.error = w.app.error ∧
    (stopClassification w).app.classificationError = w.app.classificationError := by
  cases h : w.app.intervalRef <;> simp [stopClassification, h]

/-- When the scheduled timers are exactly the held handle, clearing the
handle leaves no scheduled timer. -/
theorem stopClassification_timers {w : World}
    (htimers : w.timers = w.app.intervalRef.toList) :
    (stopClassification w).timers = [] := by
  cases h : w.app.intervalRef with
  | none =>
    simp only [stopClassification, h]
    rw [htimers, h]
    rfl
  | some hd =>
    simp only [stopClassification, h]
    rw [htimers, h]
    simp

/-- Lemma: `startClassification` schedules exactly one fresh timer on top of the
cleared bookkeeping and stores its handle. -/
theorem startClassification_fields (w : World) :
    (startClassification w).app.intervalRef = some w.nextTimer ∧
    (startClassification w).nextTimer = w.nextTimer + 1 ∧
    (startClassification w).timers
      = (stopClassification w).timers ++ [w.nextTimer] ∧
    (startClassification w).app.isCameraActive = w.app.isCameraActive := by
  refine ⟨?_, ?_, ?_, ?_⟩ <;>
    simp [startClassification, (stopClassification_fields w).2.1,
          (stopClassification_fields w).2.2.1]

/-- Running the activity effect restores the timer invariant from the sole
assumption that the scheduled timers are exactly the held handle. -/
theorem activityEffect_timerInv {w : World}
    (htimers : w.timers = w.app.intervalRef.toList) :
    TimerInv (activityEffect w) := by
  unfold activityEffect
  cases hact : w.app.isCameraActive with
  | true =>
    simp only [hact, if_true]
    refine ⟨?_, ?_, ?_⟩
    · rw [(startClassification_fields w).1, (startClassification_fields w).2.2.2, hact]
      rfl
    · rw [(startClassification_fields w).2.2.1, stopClassification_timers htimers,
          (startClassification_fields w).1]
      rfl
    · intro h hh
      rw [(startClassification_fields w).1] at hh
      rw [(startClassification_fields w).2.1]
      cases hh
      omega
  | false =>
    rw [if_neg (by simp [hact])]
    refine ⟨?_, ?_, ?_⟩
    · rw [(stopClassification_fields w).1, (stopClassification_fields w).2.1, hact]
      rfl
    · rw [stopClassification_timers htimers, (stopClassification_fields w).1]
      rfl
    · intro h hh
      rw [(stopClassification_fields w).1] at hh
      cases hh

/-- Lemma: `startCamera` never touches the timer bookkeeping, and the activity
flag it leaves matches the outcome of the device request. -/
theorem startCamera_fields (w : World) (outcome : CameraOutcome) :
    (startCamera w outcome).timers = w.timers ∧
    (startCamera w outcome).app.intervalRef = w.app.intervalRef ∧
    (startCamera w outcome).nextTimer = w.nextTimer := by
  cases outcome <;> simp [startCamera, resetSlots]

/-- Lemma: `stopCameraRest` never touches the timer bookkeeping and clears the
activity flag. -/
theorem stopCameraRest_fields (w : World) :
    (stopCameraRest w).timers = w.timers ∧
    (stopCameraRest w).app.intervalRef = w.app.intervalRef ∧
    (stopCameraRest w).nextTimer = w.nextTimer ∧
    (stopCameraRest w).app.isCameraActive = false := by
  cases h : w.app.stream <;> simp [stopCameraRest, h]

/-- Lemma: `tickStep` never touches the timer bookkeeping, the activity flag, the
stream, the track table or the camera error slot. -/
theorem tickStep_fields (w : World) (videoElement : Option VideoElement)
    (api : ApiResult) :
    (tickStep w videoElement api).timers = w.timers ∧
    (tickStep w videoElement api).app.intervalRef = w.app.intervalRef ∧
    (tickStep w videoElement api).nextTimer = w.nextTimer ∧
    (tickStep w videoElement api).app.isCameraActive = w.app.isCameraActive ∧
    (tickStep w videoElement api).app.stream = w.app.stream ∧
    (tickStep w videoElement api).tracks = w.tracks ∧
    (tickStep w videoElement api).app.error = w.app.error := by
  cases videoElement with
  | none => simp [tickStep]
  | some v =>
    cases h : (classifyWaste (some v) api).result <;> simp [tickStep, h]

/-- Every reachable world satisfies the timer bookkeeping invariant. -/
theorem timer_invariant {w : World} (hr : Reachable w) : TimerInv w := by
  induction hr with
  | init =>
    refine ⟨rfl, rfl, ?_⟩
    intro h hh
    cases hh
  | start outcome hr hidle ih =>
    rename_i w
    obtain ⟨hact, htimers, hfresh⟩ := ih
    unfold startStep
    exact activityEffect_timerInv
      (by rw [(startCamera_fields w outcome).1,
              (startCamera_fields w outcome).2.1, htimers])
  | stop hr ih =>
    rename_i w
    obtain ⟨hact, htimers, hfresh⟩ := ih
    unfold stopCamera
    refine ⟨?_, ?_, ?_⟩
    · rw [(stopCameraRest_fields _).2.1, (stopClassification_fields w).1,
          (stopCameraRest_fields _).2.2.2]
      rfl
    · rw [(stopCameraRest_fields _).1, (stopCameraRest_fields _).2.1,
          (stopClassification_fields w).1, stopClassification_timers htimers]
      rfl
    · intro h hh
      rw [(stopCameraRest_fields _).2.1, (stopClassification_fields w).1] at hh
      cases hh
  | tick videoElement api hr htimer ih =>
    rename_i w
    obtain ⟨hact, htimers, hfresh⟩ := ih
    refine ⟨?_, ?_, ?_⟩
    · rw [(tickStep_fields w videoElement api).2.1,
          (tickStep_fields w videoElement api).2.2.2.1, hact]
    · rw [(tickStep_fields w videoElement api).1,
          (tickStep_fields w videoElement api).2.1, htimers]
    · intro h hh
      rw [(tickStep_fields w videoElement api).2.1] at hh
      rw [(tickStep_fields w videoElement api).2.2.1]
      exact hfresh h hh

/-- After `stopTracks`, every track of the table whose id belongs to the
released stream carries the stopped flag. -/
theorem stopTracks_stops (tracks : List Track) (ids : List Nat) :
    ∀ t ∈ stopTracks tracks ids, t.id ∈ ids → t.stopped = true := by
  intro t ht hid
  rw [stopTracks, List.mem_map] at ht
  obtain ⟨t0, ht0, heq⟩ := ht
  by_cases h : t0.id ∈ ids
  · rw [if_pos h] at heq
    rw [← heq]
  · rw [if_neg h] at heq
    rw [← heq] at hid
    exact absurd hid h

/-- C1: for every parsed classifier response with both fields present, on a
ready video surface: a confidence below 0.75 yields `UNKNOWN` whatever the
label; a confidence of at least 0.75 passes a `PLASTIC` or `NON_PLASTIC`
label through and maps every other label string to `UNKNOWN`. -/
theorem classifyWaste_confidence_policy
    (v : VideoElement) (hw : v.videoWidth ≠ 0) (hh : v.videoHeight ≠ 0)
    (classification : String) (confidence : ℚ) :
    (confidence < confidenceThreshold →
      (classifyWaste (some v)
        (ApiResult.respond (JsonBody.obj classification confidence))).result
        = Except.ok WasteType.UNKNOWN) ∧
    (confidenceThreshold ≤ confidence → classification = "PLASTIC" →
      (classifyWaste (some v)
        (ApiResult.respond (JsonBody.obj classification confidence))).result
        = Except.ok WasteType.PLASTIC) ∧
    (confidenceThreshold ≤ confidence → classification = "NON_PLASTIC" →
      (classifyWaste (some v)
        (ApiResult.respond (JsonBody.obj classification confidence))).result
        = Except.ok WasteType.NON_PLASTIC) ∧
    (confidenceThreshold ≤ confidence → classification ≠ "PLASTIC" →
      classification ≠ "NON_PLASTIC" →
      (classifyWaste (some v)
        (ApiResult.respond (JsonBody.obj classification confidence))).result
        = Except.ok WasteType.UNKNOWN) := by
  refine ⟨?_, ?_, ?_, ?_⟩
  · intro hconf
    simp [classifyWaste, hw, hh, hconf]
  · intro hconf hcls
    simp [classifyWaste, hw, hh, not_lt.mpr hconf, hcls,
          switchClassification, WasteType.value]
  · intro hconf hcls
    simp [classifyWaste, hw, hh, not_lt.mpr hconf, hcls,
          switchClassification, WasteType.value]
  · intro hconf hcls1 hcls2
    simp [classifyWaste, hw, hh, not_lt.mpr hconf, hcls1, hcls2,
          switchClassification, WasteType.value]

/-- Witness for C1: a `PLASTIC` label at confidence 9/10 on a 640×480
surface is passed through. -/
theorem classifyWaste_confidence_policy_witness :
    (classifyWaste (some ⟨640, 480, "frame"⟩)
      (ApiResult.respond (JsonBody.obj "PLASTIC" (mkRat 9 10)))).result
      = Except.ok WasteType.PLASTIC :=
  (classifyWaste_confidence_policy ⟨640, 480, "frame"⟩ (by decide) (by decide)
    "PLASTIC" (mkRat 9 10)).2.1 (by decide) rfl

/-- C2: with a null video ref or a surface of zero intrinsic width or
height, `classifyWaste` returns `UNKNOWN` without running `captureFrame`
and without issuing any remote request, whatever the remote outcome would
have been. -/
theorem classifyWaste_notready_guard (videoElement : Option VideoElement)
    (api : ApiResult)
    (hready : videoElement = none ∨
      ∃ v, videoElement = some v ∧ (v.videoWidth = 0 ∨ v.videoHeight = 0)) :
    classifyWaste videoElement api
      = ⟨false, 0, Except.ok WasteType.UNKNOWN⟩ := by
  rcases hready with hnone | ⟨v, hsome, hdim⟩
  · rw [hnone]
    rfl
  · rw [hsome]
    show (if v.videoWidth = 0 ∨ v.videoHeight = 0 then _ else _) = _
    rw [if_pos hdim]

/-- Witness for C2: a surface reporting width 0 short-circuits to
`UNKNOWN` with no capture and no request, even when the transport would
have failed. -/
theorem classifyWaste_notready_guard_witness :
    classifyWaste (some ⟨0, 480, "frame"⟩) (ApiResult.throw "network down")
      = ⟨false, 0, Except.ok WasteType.UNKNOWN⟩ :=
  classifyWaste_notready_guard (some ⟨0, 480, "frame"⟩)
    (ApiResult.throw "network down") (Or.inr ⟨⟨0, 480, "frame"⟩, rfl, Or.inl rfl⟩)

/-- Counterexample to C8: the response `{"classification": "GLASS",
"confidence": 1}` violates the declared response schema (its enum allows
only `PLASTIC`, `NON_PLASTIC`, `UNKNOWN`), yet `classifyWaste` converts it
into the classification value `UNKNOWN` instead of propagating an error. -/
theorem classifyWaste_schema_violation_counterexample :
    (classifyWaste (some ⟨640, 480, "frame"⟩)
      (ApiResult.respond (JsonBody.obj "GLASS" 1))).result
      = Except.ok WasteType.UNKNOWN := by
  rfl

/-- C8 (amended): a thrown transport call and a malformed (unparseable)
response body each propagate as a single error to the caller, uncaught and
unconverted, and no call of `classifyWaste` ever issues more than one
remote request (no retry); a response that parses as JSON but violates the
schema's label enum is however mapped to `UNKNOWN`, not raised. -/
theorem classifyWaste_error_propagation
    (v : VideoElement) (hw : v.videoWidth ≠ 0) (hh : v.videoHeight ≠ 0) :
    (∀ msg, classifyWaste (some v) (ApiResult.throw msg)
      = ⟨true, 1, Except.error msg⟩) ∧
    (classifyWaste (some v) (ApiResult.respond JsonBody.malformed)
      = ⟨true, 1, Except.error "SyntaxError: JSON.parse"⟩) ∧
    (∀ videoElement api,
      (classifyWaste videoElement api).requestsIssued ≤ 1) := by
  refine ⟨?_, ?_, ?_⟩
  · intro msg
    simp [classifyWaste, hw, hh]
  · simp [classifyWaste, hw, hh]
  · intro videoElement api
    rcases videoElement with - | v0
    · exact Nat.zero_le 1
    · by_cases hdim : v0.videoWidth = 0 ∨ v0.videoHeight = 0
      · simp [classifyWaste, hdim]
      · rcases api with msg | body
        · simp [classifyWaste, hdim]
        · rcases body with - | ⟨cls, conf⟩
          · simp [classifyWaste, hdim]
          · by_cases hconf : conf < confidenceThreshold <;>
              simp [classifyWaste, hdim, hconf]

/-- Witness for C8 (amended): on a ready 640×480 surface a thrown call
propagates its error unchanged after exactly one request. -/
theorem classifyWaste_error_propagation_witness :
    classifyWaste (some ⟨640, 480, "frame"⟩) (ApiResult.throw "network down")
      = ⟨true, 1, Except.error "network down"⟩ :=
  (classifyWaste_error_propagation ⟨640, 480, "frame"⟩
    (by decide) (by decide)).1 "network down"

/-- C9: `getResultDetails` is a total pure mapping: `PLASTIC` yields the
orange positive-alert triple, `NON_PLASTIC` the green affirmative triple,
and every other classification value the neutral Scanning triple. Being a
Lean function of its argument alone, it is stateless and side-effect
free. -/
theorem getResultDetails_mapping :
    getResultDetails WasteType.PLASTIC
      = ⟨"Plastic Waste",
         "bg-orange-500/20 border-orange-500 text-orange-300",
         Icon.plastic⟩ ∧
    getResultDetails WasteType.NON_PLASTIC
      = ⟨"Non-Plastic Waste",
         "bg-green-500/20 border-green-500 text-green-300",
         Icon.nonPlastic⟩ ∧
    ∀ result, result ≠ WasteType.PLASTIC → result ≠ WasteType.NON_PLASTIC →
      getResultDetails result
        = ⟨"Scanning...",
           "bg-gray-700/50 border-gray-600 text-gray-400",
           Icon.unknown⟩ := by
  refine ⟨rfl, rfl, ?_⟩
  intro result h1 h2
  cases result with
  | PLASTIC => exact absurd rfl h1
  | NON_PLASTIC => exact absurd rfl h2
  | UNKNOWN => rfl

/-- Witness for C9: the not-yet-classified value `UNKNOWN` renders as the
neutral Scanning triple. -/
theorem getResultDetails_mapping_witness :
    getResultDetails WasteType.UNKNOWN
      = ⟨"Scanning...",
         "bg-gray-700/50 border-gray-600 text-gray-400",
         Icon.unknown⟩ :=
  getResultDetails_mapping.2.2 WasteType.UNKNOWN
    (by decide) (by decide)

/-- C10: `stopClassification` and `stopCamera` are idempotent total
functions: a second call from the state the first call produced changes
nothing (the `clearInterval` is guarded on a non-null handle and the track
release on a non-null stream), so stopping an already-stopped session is
safe. -/
theorem stop_idempotent (w : World) :
    stopClassification (stopClassification w) = stopClassification w ∧
    stopCamera (stopCamera w) = stopCamera w := by
  obtain ⟨⟨act, st, cls, err, cerr, iref⟩, tracks, timers, nt⟩ := w
  constructor
  · cases iref <;> simp [stopClassification]
  · cases iref <;> cases st <;>
      simp [stopCamera, stopCameraRest, stopClassification, stopTracks]

/-- The computable threshold of the embedding is exactly the decimal
literal `0.75` of the source. -/
theorem confidenceThreshold_eq_literal : confidenceThreshold = 0.75 := by
  norm_num [confidenceThreshold, mkRat, Rat.normalize]

/-- When a stream is held, `stopCameraRest` replaces the track table by its
stopped update. -/
theorem stopCameraRest_tracks {w : World} {ids : List Nat}
    (hst : w.app.stream = some ids) :
    (stopCameraRest w).tracks = stopTracks w.tracks ids := by
  simp [stopCameraRest, hst]

/-- The app fields `stopCameraRest` clears, and the camera error slot it
preserves. -/
theorem stopCameraRest_app (w : World) :
    (stopCameraRest w).app.stream = none ∧
    (stopCameraRest w).app.classification = WasteType.UNKNOWN ∧
    (stopCameraRest w).app.classificationError = none ∧
    (stopCameraRest w).app.error = w.app.error := by
  cases h : w.app.stream <;> simp [stopCameraRest, h]

/-- Lemma: `startClassification` preserves every app field except the timer
handle, as well as the track table. -/
theorem startClassification_app (w : World) :
    (startClassification w).app.classification = w.app.classification ∧
    (startClassification w).app.classificationError = w.app.classificationError ∧
    (startClassification w).app.error = w.app.error ∧
    (startClassification w).app.stream = w.app.stream ∧
    (startClassification w).app.isCameraActive = w.app.isCameraActive ∧
    (startClassification w).tracks = w.tracks := by
  obtain ⟨h1, h2, h3, h4, h5, h6, h7, h8⟩ := stopClassification_fields w
  refine ⟨?_, ?_, ?_, ?_, ?_, ?_⟩ <;>
    simp [startClassification, h2, h4, h5, h6, h7, h8]

/-- Both branches of `startCamera` leave the classification at `UNKNOWN`
and the transient error slot empty, as set before the device request. -/
theorem startCamera_app (w : World) (outcome : CameraOutcome) :
    (startCamera w outcome).app.classification = WasteType.UNKNOWN ∧
    (startCamera w outcome).app.classificationError = none := by
  cases outcome <;> simp [startCamera, resetSlots]

/-- The success branch of `startCamera`: stream stored, activity flag set,
camera error slot left cleared, fresh unstopped tracks created. -/
theorem startCamera_success (w : World) (trackIds : List Nat) :
    (startCamera w (CameraOutcome.success trackIds)).app.stream
      = some trackIds ∧
    (startCamera w (CameraOutcome.success trackIds)).app.isCameraActive
      = true ∧
    (startCamera w (CameraOutcome.success trackIds)).app.error = none ∧
    (startCamera w (CameraOutcome.success trackIds)).tracks
      = w.tracks ++ trackIds.map (fun i => ⟨i, false⟩) := by
  refine ⟨?_, ?_, ?_, ?_⟩ <;> simp [startCamera, resetSlots]

/-- The failure branch of `startCamera`: the categorised message is stored,
the activity flag cleared, the stream left as it was. -/
theorem startCamera_failure (w : World) (e : CameraError) :
    (startCamera w (CameraOutcome.failure e)).app.error
      = some (errClassMessage (classifyCameraError e)) ∧
    (startCamera w (CameraOutcome.failure e)).app.isCameraActive = false ∧
    (startCamera w (CameraOutcome.failure e)).app.stream = w.app.stream := by
  refine ⟨?_, ?_, ?_⟩ <;> simp [startCamera, resetSlots]

/-- C3: after `stopCamera`, from any state: the timer handle is null (and
from a reachable state no scheduled timer remains), every track of the
previously held stream is stopped, the stream reference is cleared, the
classification is `UNKNOWN` and the transient classification error is
cleared. -/
theorem stopCamera_postcondition (w : World) :
    (stopCamera w).app.intervalRef = none ∧
    (Reachable w → (stopCamera w).timers = []) ∧
    (∀ ids, w.app.stream = some ids →
      ∀ t ∈ (stopCamera w).tracks, t.id ∈ ids → t.stopped = true) ∧
    (stopCamera w).app.stream = none ∧
    (stopCamera w).app.isCameraActive = false ∧
    (stopCamera w).app.classification = WasteType.UNKNOWN ∧
    (stopCamera w).app.classificationError = none := by
  refine ⟨?_, ?_, ?_, ?_, ?_, ?_, ?_⟩
  · rw [stopCamera, (stopCameraRest_fields _).2.1,
        (stopClassification_fields w).1]
  · intro hr
    rw [stopCamera, (stopCameraRest_fields _).1,
        stopClassification_timers (timer_invariant hr).2.1]
  · intro ids hst t ht hid
    have hst' : (stopClassification w).app.stream = some ids := by
      rw [(stopClassification_fields w).2.2.2.2.1, hst]
    rw [stopCamera, stopCameraRest_tracks hst',
        (stopClassification_fields w).2.2.2.1] at ht
    exact stopTracks_stops w.tracks ids t ht hid
  · rw [stopCamera]
    exact (stopCameraRest_app _).1
  · rw [stopCamera]
    exact (stopCameraRest_fields _).2.2.2
  · rw [stopCamera]
    exact (stopCameraRest_app _).2.1
  · rw [stopCamera]
    exact (stopCameraRest_app _).2.2.1

/-- Witness for C3: stopping the camera from the concrete post-start world
leaves no scheduled timer and only stopped tracks of the held stream. -/
theorem stopCamera_postcondition_witness :
    (stopCamera demoStart).timers = [] ∧
    (∀ t ∈ (stopCamera demoStart).tracks, t.id ∈ [5] → t.stopped = true) := by
  have h := stopCamera_postcondition demoStart
  exact ⟨h.2.1 (Reachable.start (CameraOutcome.success [5]) Reachable.init rfl),
         h.2.2.1 [5] rfl⟩

/-- C4: every start resets the classification to `UNKNOWN` and empties the
transient error slot; whenever the polling loop is running afterwards the
camera error slot is empty too; and on a successful acquisition the stream
is stored, the session is active and the polling loop has begun — so the
first tick always fires from the reset state. -/
theorem startCamera_resets (w : World) (outcome : CameraOutcome) :
    (startStep w outcome).app.classification = WasteType.UNKNOWN ∧
    (startStep w outcome).app.classificationError = none ∧
    ((startStep w outcome).app.intervalRef.isSome = true →
      (startStep w outcome).app.error = none) ∧
    (∀ trackIds, outcome = CameraOutcome.success trackIds →
      (startStep w outcome).app.stream = some trackIds ∧
      (startStep w outcome).app.isCameraActive = true ∧
      (startStep w outcome).app.intervalRef.isSome = true) := by
  cases outcome with
  | success trackIds =>
    have hstep : startStep w (CameraOutcome.success trackIds)
        = startClassification (startCamera w (CameraOutcome.success trackIds)) := by
      rw [startStep, activityEffect,
          if_pos (startCamera_success w trackIds).2.1]
    obtain ⟨ha1, ha2, ha3, ha4, ha5, ha6⟩ :=
      startClassification_app (startCamera w (CameraOutcome.success trackIds))
    refine ⟨?_, ?_, ?_, ?_⟩
    · rw [hstep, ha1, (startCamera_app w _).1]
    · rw [hstep, ha2, (startCamera_app w _).2]
    · intro _
      rw [hstep, ha3, (startCamera_success w trackIds).2.2.1]
    · intro trackIds' heq
      injection heq with hids
      subst hids
      refine ⟨?_, ?_, ?_⟩
      · rw [hstep, ha4, (startCamera_success w trackIds).1]
      · rw [hstep, ha5, (startCamera_success w trackIds).2.1]
      · rw [hstep, (startClassification_fields _).1]
        rfl
  | failure e =>
    have hstep : startStep w (CameraOutcome.failure e)
        = stopClassification (startCamera w (CameraOutcome.failure e)) := by
      rw [startStep, activityEffect,
          if_neg (by simp [(startCamera_failure w e).2.1])]
    obtain ⟨h1, h2, h3, h4, h5, h6, h7, h8⟩ :=
      stopClassification_fields (startCamera w (CameraOutcome.failure e))
    refine ⟨?_, ?_, ?_, ?_⟩
    · rw [hstep, h6, (startCamera_app w _).1]
    · rw [hstep, h8, (startCamera_app w _).2]
    · intro hsome
      rw [hstep, h1] at hsome
      cases hsome
    · intro trackIds heq
      cases heq

/-- Witness for C4: the first successful start from the initial world
stores the stream, activates the session and begins the polling loop. -/
theorem startCamera_resets_witness :
    (startStep initialWorld (CameraOutcome.success [7])).app.stream
      = some [7] ∧
    (startStep initialWorld (CameraOutcome.success [7])).app.isCameraActive
      = true ∧
    (startStep initialWorld (CameraOutcome.success [7])).app.intervalRef.isSome
      = true :=
  (startCamera_resets initialWorld (CameraOutcome.success [7])).2.2.2 [7] rfl

/-- C5: on a polling tick with a live video ref, a successful
classification call stores the returned value and clears any pending
transient error, while a failed call sets the transient error message and
forces `UNKNOWN`; in both cases the stream, the activity flag, the timer
handle, the scheduled timers and the camera error are untouched, so the
loop keeps ticking. -/
theorem tick_spec (w : World) (v : VideoElement) (api : ApiResult) :
    (∀ r, (classifyWaste (some v) api).result = Except.ok r →
      (tickStep w (some v) api).app.classification = r ∧
      (tickStep w (some v) api).app.classificationError = none) ∧
    (∀ e, (classifyWaste (some v) api).result = Except.error e →
      (tickStep w (some v) api).app.classificationError
        = some "Classification failed. Please check your network connection." ∧
      (tickStep w (some v) api).app.classification = WasteType.UNKNOWN) ∧
    (tickStep w (some v) api).app.stream = w.app.stream ∧
    (tickStep w (some v) api).app.isCameraActive = w.app.isCameraActive ∧
    (tickStep w (some v) api).app.intervalRef = w.app.intervalRef ∧
    (tickStep w (some v) api).timers = w.timers ∧
    (tickStep w (some v) api).app.error = w.app.error := by
  obtain ⟨hf1, hf2, hf3, hf4, hf5, hf6, hf7⟩ := tickStep_fields w (some v) api
  refine ⟨?_, ?_, hf5, hf4, hf2, hf1, hf7⟩
  · intro r hr
    constructor
    · simp [tickStep, hr]
    · cases hce : w.app.classificationError <;> simp [tickStep, hr, hce]
  · intro e he
    exact ⟨by simp [tickStep, he], by simp [tickStep, he]⟩

/-- Witness for C5: a confident `PLASTIC` response on a tick from the
concrete post-start world stores `PLASTIC` and leaves no transient
error. -/
theorem tick_spec_witness :
    (tickStep demoStart (some ⟨640, 480, "frame"⟩)
      (ApiResult.respond (JsonBody.obj "PLASTIC" 1))).app.classification
      = WasteType.PLASTIC ∧
    (tickStep demoStart (some ⟨640, 480, "frame"⟩)
      (ApiResult.respond (JsonBody.obj "PLASTIC" 1))).app.classificationError
      = none :=
  (tick_spec demoStart ⟨640, 480, "frame"⟩
    (ApiResult.respond (JsonBody.obj "PLASTIC" 1))).1 WasteType.PLASTIC rfl

/-- C6: in every reachable world the polling timer handle exists exactly
while the session is active, the scheduled timers are exactly the held
handle (hence never more than one, across any number of start/stop
cycles); starting a new polling loop never keeps a previously held handle
scheduled; and `stopCamera` factors through an intermediate state in which
the timer is already torn down but no track has yet been released. -/
theorem polling_timer_lifecycle :
    (∀ w, Reachable w →
      w.app.intervalRef.isSome = w.app.isCameraActive ∧
      w.timers = w.app.intervalRef.toList ∧
      w.timers.length ≤ 1) ∧
    (∀ w, Reachable w → ∀ h, w.app.intervalRef = some h →
      h ∉ (startClassification w).timers) ∧
    (∀ w, ∃ mid, stopCamera w = stopCameraRest mid ∧
      mid.app.intervalRef = none ∧ mid.tracks = w.tracks) := by
  refine ⟨?_, ?_, ?_⟩
  · intro w hr
    obtain ⟨hact, htimers, hfresh⟩ := timer_invariant hr
    refine ⟨hact, htimers, ?_⟩
    rw [htimers]
    cases w.app.intervalRef <;> simp
  · intro w hr h hh
    obtain ⟨hact, htimers, hfresh⟩ := timer_invariant hr
    rw [(startClassification_fields w).2.2.1,
        stopClassification_timers htimers]
    simp only [List.nil_append, List.mem_singleton]
    intro heq
    exact absurd (heq ▸ hfresh h hh) (lt_irrefl w.nextTimer)
  · intro w
    exact ⟨stopClassification w, rfl, (stopClassification_fields w).1,
           (stopClassification_fields w).2.2.2.1⟩

/-- Witness for C6: the concrete post-start world holds handle 0, its
scheduled timers are exactly that handle, and restarting the loop discards
it. -/
theorem polling_timer_lifecycle_witness :
    (demoStart.timers = demoStart.app.intervalRef.toList ∧
     demoStart.timers.length ≤ 1) ∧
    (0 : Nat) ∉ (startClassification demoStart).timers := by
  have hr : Reachable demoStart :=
    Reachable.start (CameraOutcome.success [5]) Reachable.init rfl
  exact ⟨⟨(polling_timer_lifecycle.1 demoStart hr).2.1,
          (polling_timer_lifecycle.1 demoStart hr).2.2⟩,
         polling_timer_lifecycle.2.1 demoStart hr 0 rfl⟩

/-- C7: a failed acquisition stores the message of exactly one of the
three categories (the categorisation function is total into the three-way
`ErrClass`), leaves the session inactive with its stream unchanged, and
starts no polling loop; the `NotAllowedError` rejection is categorised as
permission-denied and its message text contains the word permission. -/
theorem startCamera_failure_spec (w : World) (e : CameraError) :
    (startStep w (CameraOutcome.failure e)).app.error
      = some (errClassMessage (classifyCameraError e)) ∧
    (startStep w (CameraOutcome.failure e)).app.isCameraActive = false ∧
    (startStep w (CameraOutcome.failure e)).app.intervalRef = none ∧
    (startStep w (CameraOutcome.failure e)).app.stream = w.app.stream ∧
    (classifyCameraError (CameraError.domException "NotAllowedError")
        = ErrClass.permissionDenied ∧
      ∃ pre post, errClassMessage ErrClass.permissionDenied
        = pre ++ "permission" ++ post) := by
  have hstep : startStep w (CameraOutcome.failure e)
      = stopClassification (startCamera w (CameraOutcome.failure e)) := by
    rw [startStep, activityEffect,
        if_neg (by simp [(startCamera_failure w e).2.1])]
  obtain ⟨h1, h2, h3, h4, h5, h6, h7, h8⟩ :=
    stopClassification_fields (startCamera w (CameraOutcome.failure e))
  refine ⟨?_, ?_, ?_, ?_, rfl, ?_⟩
  · rw [hstep, h7, (startCamera_failure w e).1]
  · rw [hstep, h2, (startCamera_failure w e).2.1]
  · rw [hstep, h1]
  · rw [hstep, h5, (startCamera_failure w e).2.2]
  · exact ⟨"Camera access denied. Please enable camera ",
           "s for this site in your browser settings.", rfl⟩

end WasteApp
